import Mathlib

/-!
Verification of the Verador chatbot conversational flow engine.

The definitions below are a shallow embedding of the TypeScript sources:
  * `ValidationService`   (src/chatbot/services/validation.service.ts)
  * `FlowService`         (src/chatbot/services/flow.service.ts)
  * `ConversationStateService` (src/chatbot/services/conversation-state.service.ts)
  * `ChatbotService`      (src/chatbot/services/chatbot.service.ts)

Modelling conventions:
  * JavaScript strings are Lean `String`s; all character-level operations
    (trim, toLowerCase, includes, parseInt, regex-free rewrites) are defined
    explicitly over `String.data` so that they both mirror the JS semantics
    and compute by `rfl`/`decide`.
  * `Date` timestamps are `Int` milliseconds; every stateful operation takes
    the current time `now` as an explicit argument (the source calls
    `new Date()`).
  * The two service `Map`s (`conversations`, `messageHistory`) are keyed by
    `userId` and every operation touches only the caller's key, so we model
    the per-user slice `UserStore`: `conv` is `conversations.get(userId)` and
    `msgs` is `messageHistory.get(userId) ?? []`.
  * The TS code is synchronous apart from `step.action` (a promise that can
    reject); an action is modelled as a function that can signal failure via
    `Except`, and the `try/catch` around it becomes an explicit match.
-/

/-! ## JavaScript string primitives -/

/-- The whitespace characters recognised by the JS `trim()` / `parseInt`
whitespace skipping that can realistically occur here (space, tab, LF, CR,
vertical tab, form feed, NBSP). -/
def jsIsWs (c : Char) : Bool :=
  c == ' ' || c == '\t' || c == '\n' || c == '\r' ||
  c == '\x0b' || c == '\x0c' || c == ' '

/-- JS `String.prototype.trim`: drop leading and trailing whitespace. -/
def jsTrimList (l : List Char) : List Char :=
  ((l.dropWhile jsIsWs).reverse.dropWhile jsIsWs).reverse

/-- JS `String.prototype.trim` on strings. -/
def jsTrim (s : String) : String :=
  ⟨jsTrimList s.data⟩

/-- ASCII lower-casing of one character (`String.prototype.toLowerCase`;
every string the program compares is ASCII-cased). -/
def charLower (c : Char) : Char :=
  if 'A' ≤ c ∧ c ≤ 'Z' then Char.ofNat (c.toNat + 32) else c

/-- JS `String.prototype.toLowerCase`. -/
def jsLower (s : String) : String :=
  ⟨s.data.map charLower⟩

/-- Does the second list occur at the head of the first? -/
def leadsWith (l pat : List Char) : Bool :=
  match pat, l with
  | [], _ => true
  | _ :: _, [] => false
  | p :: ps, c :: cs => p == c && leadsWith cs ps

/-- Does `pat` occur as a contiguous run somewhere in `l`?
(`String.prototype.includes`). -/
def occursIn (l pat : List Char) : Bool :=
  leadsWith l pat ||
    match l with
    | [] => false
    | _ :: t => occursIn t pat

/-- JS `haystack.includes(needle)`. -/
def jsIncludes (haystack needle : String) : Bool :=
  occursIn haystack.data needle.data

/-- Value of a run of decimal digits. -/
def decDigitsVal (l : List Char) : Int :=
  l.foldl (fun acc c => acc * 10 + (Int.ofNat (c.toNat - '0'.toNat))) 0

/-- Is `c` a hexadecimal digit? -/
def isHexDigitCh (c : Char) : Bool :=
  c.isDigit || ('a' ≤ c ∧ c ≤ 'f') || ('A' ≤ c ∧ c ≤ 'F')

/-- Value of one hexadecimal digit. -/
def hexDigitVal (c : Char) : Int :=
  if c.isDigit then Int.ofNat (c.toNat - '0'.toNat)
  else if 'a' ≤ c ∧ c ≤ 'f' then Int.ofNat (c.toNat - 'a'.toNat + 10)
  else Int.ofNat (c.toNat - 'A'.toNat + 10)

/-- Value of a run of hexadecimal digits. -/
def hexDigitsVal (l : List Char) : Int :=
  l.foldl (fun acc c => acc * 16 + hexDigitVal c) 0

/-- JS `parseInt(s)` with the radix argument omitted: skip whitespace, read an
optional sign, detect a `0x`/`0X` prefix (radix 16), otherwise read the
longest run of decimal digits; `none` models `NaN`. -/
def jsParseIntList (l : List Char) : Option Int :=
  let l := l.dropWhile jsIsWs
  let signed : Int × List Char :=
    match l with
    | '-' :: t => (-1, t)
    | '+' :: t => (1, t)
    | _ => (1, l)
  let sign := signed.1
  let body := signed.2
  match body with
  | '0' :: c :: t =>
    if c = 'x' ∨ c = 'X' then
      let ds := t.takeWhile isHexDigitCh
      if ds.isEmpty then none else some (sign * hexDigitsVal ds)
    else
      let ds := body.takeWhile Char.isDigit
      if ds.isEmpty then none else some (sign * decDigitsVal ds)
  | _ =>
    let ds := body.takeWhile Char.isDigit
    if ds.isEmpty then none else some (sign * decDigitsVal ds)

/-- JS `parseInt` on strings. -/
def jsParseInt (s : String) : Option Int :=
  jsParseIntList s.data

-- quick sanity checks (kept as anonymous examples; they are part of the
-- development, not scratch work)

/-! ## Data model (src/chatbot/interfaces/conversation.interface.ts) -/

/-- Model of `ChatMessage.messageType`. -/
inductive MessageType where
  | incoming
  | outgoing
deriving DecidableEq, Repr

/-- Model of `ConversationState` (one per user). -/
structure ConversationState where
  userId : String
  currentStep : String
  stepHistory : List String
  lastMessageTime : Int
  isActive : Bool
  data : List (String × String)
  waitingFor : Option String
  attempts : Nat
deriving DecidableEq, Repr

/-- Model of `ChatMessage`: one entry of the bounded per-user message log. -/
structure ChatMessage where
  userId : String
  message : String
  timestamp : Int
  messageType : MessageType
deriving DecidableEq, Repr

/-- Model of `ValidationRule.type`. -/
inductive VType where
  | number
  | text
  | email
  | phone
  | option
  | custom
deriving DecidableEq, Repr

/-- Model of `ValidationRule`. A `RegExp` is modelled as the predicate `pattern`
tests; `customValidator` is carried as a function. -/
structure ValidationRule where
  type : VType
  required : Option Bool := none
  minLength : Option Nat := none
  maxLength : Option Nat := none
  pattern : Option (String → Bool) := none
  customValidator : Option (String → Bool) := none
  errorMessage : Option String := none

/-- Model of `FlowOption`: one row of a step's branching table. -/
structure FlowOption where
  key : String
  text : String
  nextStep : String
deriving DecidableEq, Repr

/-- Model of `FlowStep.nextStep`: either a fixed step id or a function of the input
and the session (the TS field is `string | ((userInput, state) => string)`,
discriminated by `typeof`). -/
inductive NextStepSpec where
  | static (id : String)
  | computed (f : String → ConversationState → String)

/-- Model of `FlowStep.action`: may reject (the promise throws); a reasonable pure
image of `(userInput, state) => Promise<void>`.  None of the steps the
program registers has one. -/
def StepAction := String → ConversationState → Except Unit Unit

/-- Model of `FlowStep`. -/
structure FlowStep where
  id : String
  name : String
  message : String
  options : Option (List FlowOption) := none
  validation : Option ValidationRule := none
  nextStep : Option NextStepSpec := none
  action : Option StepAction := none
  allowBack : Option Bool := none
  allowRestart : Option Bool := none

/-- Model of `ChatbotResponse`. -/
structure ChatbotResponse where
  message : String
  options : Option (List String) := none
  shouldEnd : Option Bool := none
deriving DecidableEq, Repr

/-! ## ValidationService (src/chatbot/services/validation.service.ts) -/

/-- Result of `validateInput`: `{ isValid, errorMessage? }`. -/
structure Vres where
  isValid : Bool
  errorMessage : Option String := none
deriving DecidableEq, Repr

/-- Model of `validateNumber`: `Number(input)` must not be `NaN`.  We only need the
boolean "does it parse", modelled syntactically: optional sign followed by a
decimal/float/hex literal ( `Number("")` is `0`, but `validateInput` never
passes an empty trimmed string here). -/
def jsNumberParses (s : String) : Bool :=
  let l := s.data
  let body :=
    match l with
    | '-' :: t => t
    | '+' :: t => t
    | _ => l
  let hex : Bool :=
    match body with
    | '0' :: c :: t => (c == 'x' || c == 'X') && !t.isEmpty && t.all isHexDigitCh
    | _ => false
  let intPart := body.takeWhile Char.isDigit
  let afterInt := body.drop intPart.length
  let fracLen : Nat :=
    match afterInt with
    | '.' :: t => (t.takeWhile Char.isDigit).length
    | _ => 0
  let afterFrac :=
    match afterInt with
    | '.' :: t => t.drop (t.takeWhile Char.isDigit).length
    | _ => afterInt
  let expOk : Bool :=
    match afterFrac with
    | [] => true
    | c :: t =>
      (c == 'e' || c == 'E') &&
        (let t2 := match t with | '-' :: r => r | '+' :: r => r | _ => t
         !t2.isEmpty && t2.all Char.isDigit)
  hex || (decide (0 < intPart.length + fracLen) && expOk) || body == "Infinity".data

/-- Model of `validateNumber(input, rule)`. -/
def validateNumber (input : String) (rule : ValidationRule) : Vres :=
  if !jsNumberParses input then
    { isValid := false, errorMessage := some (rule.errorMessage.getD "Por favor, digite apenas números.") }
  else
    match rule.pattern with
    | some p =>
      if !p input then
        { isValid := false, errorMessage := some (rule.errorMessage.getD "Formato de número inválido.") }
      else { isValid := true }
    | none => { isValid := true }

/-- The e-mail regex `/^[^\s@]+@[^\s@]+\.[^\s@]+$/`: local part, `@`, a
domain that contains a dot, no whitespace or extra `@`. -/
def jsEmailOk (s : String) : Bool :=
  let notAtWs : Char → Bool := fun c => !(jsIsWs c) && c ≠ '@'
  let l := s.data
  let localPart := l.takeWhile notAtWs
  match l.drop localPart.length with
  | '@' :: rest =>
    !localPart.isEmpty && !rest.isEmpty && rest.all notAtWs &&
      ((rest.drop 1).dropLast).contains '.'
  | _ => false

/-- Model of `validateEmail(input, rule)`. -/
def validateEmail (input : String) (rule : ValidationRule) : Vres :=
  if !jsEmailOk input then
    { isValid := false, errorMessage := some (rule.errorMessage.getD "Por favor, digite um email válido.") }
  else
    match rule.pattern with
    | some p =>
      if !p input then
        { isValid := false, errorMessage := some (rule.errorMessage.getD "Formato de email inválido.") }
      else { isValid := true }
    | none => { isValid := true }

/-- Model of `input.replace(/\D/g, '')`: keep only the decimal digits. -/
def digitsOf (s : String) : List Char :=
  s.data.filter Char.isDigit

/-- Model of `validatePhone(input, rule)`: the cleaned number must have 10 or 11
digits ("telefone brasileiro"), then the optional pattern runs. -/
def validatePhone (input : String) (rule : ValidationRule) : Vres :=
  let cleanPhone := digitsOf input
  if cleanPhone.length < 10 ∨ cleanPhone.length > 11 then
    { isValid := false, errorMessage := some (rule.errorMessage.getD "Por favor, digite um telefone válido (10 ou 11 dígitos).") }
  else
    match rule.pattern with
    | some p =>
      if !p input then
        { isValid := false, errorMessage := some (rule.errorMessage.getD "Formato de telefone inválido.") }
      else { isValid := true }
    | none => { isValid := true }

/-- Model of `validateOption(input, rule)`: a numeric input is accepted outright
(range checking happens in the flow); otherwise only the pattern runs. -/
def validateOption (input : String) (rule : ValidationRule) : Vres :=
  if jsNumberParses input then { isValid := true }
  else
    match rule.pattern with
    | some p =>
      if !p input then
        { isValid := false, errorMessage := some (rule.errorMessage.getD "Opção inválida. Por favor, escolha uma das opções disponíveis.") }
      else { isValid := true }
    | none => { isValid := true }

/-- Model of `validateText(input, rule)`. -/
def validateText (input : String) (rule : ValidationRule) : Vres :=
  match rule.pattern with
  | some p =>
    if !p input then
      { isValid := false, errorMessage := some (rule.errorMessage.getD "Formato de texto inválido.") }
    else { isValid := true }
  | none => { isValid := true }

/-- Model of `validateCustom(input, rule)`. -/
def validateCustom (input : String) (rule : ValidationRule) : Vres :=
  match rule.customValidator with
  | some f =>
    if !f input then
      { isValid := false, errorMessage := some (rule.errorMessage.getD "Entrada inválida.") }
    else { isValid := true }
  | none => { isValid := true }

/-- Model of `validateInput(input, rule)`: empty/whitespace-only check behind
`required !== false`, then min/max length on the trimmed input (the TS
guards `rule.minLength && …` are falsy for `undefined` and `0`), then the
kind-specific check. -/
def validateInput (input : String) (rule : ValidationRule) : Vres :=
  if input = "" ∨ jsTrim input = "" then
    if rule.required ≠ some false then
      { isValid := false, errorMessage := some (rule.errorMessage.getD "Por favor, digite uma resposta válida.") }
    else { isValid := true }
  else
    let trimmedInput := jsTrim input
    if (match rule.minLength with
        | some m => decide (0 < m) && decide (trimmedInput.length < m)
        | none => false) then
      { isValid := false
        errorMessage := some (rule.errorMessage.getD
          ("A resposta deve ter pelo menos " ++ toString (rule.minLength.getD 0) ++ " caracteres.")) }
    else if (match rule.maxLength with
        | some m => decide (0 < m) && decide (trimmedInput.length > m)
        | none => false) then
      { isValid := false
        errorMessage := some (rule.errorMessage.getD
          ("A resposta deve ter no máximo " ++ toString (rule.maxLength.getD 0) ++ " caracteres.")) }
    else
      match rule.type with
      | .number => validateNumber trimmedInput rule
      | .email => validateEmail trimmedInput rule
      | .phone => validatePhone trimmedInput rule
      | .option => validateOption trimmedInput rule
      | .custom => validateCustom trimmedInput rule
      | .text => validateText trimmedInput rule

/-- Model of `normalizeInput`: trim then lower-case. -/
def normalizeInput (input : String) : String :=
  jsLower (jsTrim input)

/-- Classification result of `isControlKeyword`. -/
inductive ControlType where
  | back
  | restart
deriving DecidableEq, Repr

/-- The back keywords: `['voltar', 'anterior', '0', 'back']`. -/
def backKeywords : List String := ["voltar", "anterior", "0", "back"]

/-- The restart keywords:
`['inicio', 'iniciar', 'recomecar', 'restart', 'start', '#']`. -/
def restartKeywords : List String := ["inicio", "iniciar", "recomecar", "restart", "start", "#"]

/-- Model of `isControlKeyword(input)`: exact membership of the normalized input in
one of the two fixed keyword lists. -/
def isControlKeyword (input : String) : Option ControlType × String :=
  let normalized := normalizeInput input
  if backKeywords.contains normalized then (some .back, normalized)
  else if restartKeywords.contains normalized then (some .restart, normalized)
  else (none, normalized)

/-- One step of the `<script…>…</script>` removal: if the list starts a
script element (`<script` with a word boundary), return the suffix after the
first subsequent `</script>`. -/
def ciStripRun (pat l : List Char) : Option (List Char) :=
  match pat, l with
  | [], _ => some l
  | _ :: _, [] => none
  | p :: ps, c :: cs => if charLower c == p then ciStripRun ps cs else none

/-- Scan forward for the first case-insensitive `</script>` and return the
suffix after it (fuelled structural recursion; `fuel ≥ l.length` suffices). -/
def dropToCloseScript (fuel : Nat) (l : List Char) : Option (List Char) :=
  match fuel with
  | 0 => none
  | fuel + 1 =>
    match ciStripRun "</script>".data l with
    | some after => some after
    | none =>
      match l with
      | [] => none
      | _ :: t => dropToCloseScript fuel t

/-- Is this a JS word character (for the `\b` after `script`)? -/
def isWordChar (c : Char) : Bool :=
  c.isAlphanum || c == '_'

/-- Model of `input.replace(/<script\b[^<]*(?:(?!<\/script>)<[^<]*)*<\/script>/gi, '')`:
each match runs from a `<script` (with word boundary) through the first
following `</script>`; unmatched openings are left alone.  Fuelled
structural recursion; `fuel ≥ l.length` suffices. -/
def removeScriptsAux (fuel : Nat) (l : List Char) : List Char :=
  match fuel with
  | 0 => l
  | fuel + 1 =>
    match l with
    | [] => []
    | c :: rest =>
      if c = '<' then
        match ciStripRun "script".data rest with
        | some afterOpen =>
          if (match afterOpen with
              | [] => true
              | d :: _ => !isWordChar d) then
            match dropToCloseScript afterOpen.length afterOpen with
            | some afterClose => removeScriptsAux fuel afterClose
            | none => c :: removeScriptsAux fuel rest
          else c :: removeScriptsAux fuel rest
        | none => c :: removeScriptsAux fuel rest
      else c :: removeScriptsAux fuel rest

/-- Model of `sanitizeInput`: trim, strip `<script>…</script>` blocks, strip the
remaining angle brackets, cap at 1000 characters. -/
def sanitizeInput (input : String) : String :=
  let trimmed := jsTrimList input.data
  let noScripts := removeScriptsAux trimmed.length trimmed
  let noAngles := noScripts.filter (fun c => c ≠ '<' ∧ c ≠ '>')
  ⟨noAngles.take 1000⟩

/-! ## FlowService (src/chatbot/services/flow.service.ts) -/

/-- The options table of the `welcome` step. -/
def welcomeOptions : List FlowOption :=
  [ { key := "tickets", text := "🎫 Gerenciar Tickets", nextStep := "tickets_menu" }
  , { key := "status", text := "📊 Status do Sistema", nextStep := "system_status" }
  , { key := "help", text := "❓ Ajuda", nextStep := "help_menu" } ]

/-- The `welcome` step (`initializeFlows`). -/
def welcomeStep : FlowStep :=
  { id := "welcome"
    name := "Boas-vindas"
    message := "🤖 *Olá! Bem-vindo(a) ao Verador Bot!*\n\nSou seu assistente virtual para gerenciamento de tickets e atendimento.\n\n*Como posso ajudá-lo hoje?*"
    options := some welcomeOptions
    allowBack := some false
    allowRestart := some false }

/-- The options table of the `tickets_menu` step. -/
def ticketsMenuOptions : List FlowOption :=
  [ { key := "create", text := "➕ Criar Novo Ticket", nextStep := "create_ticket" }
  , { key := "list", text := "📋 Listar Meus Tickets", nextStep := "list_tickets" }
  , { key := "update", text := "✏️ Atualizar Status", nextStep := "update_ticket" } ]

/-- The `tickets_menu` step. -/
def ticketsMenuStep : FlowStep :=
  { id := "tickets_menu"
    name := "Menu de Tickets"
    message := "🎫 *Gerenciamento de Tickets*\n\nEscolha uma das opções abaixo:"
    options := some ticketsMenuOptions }

/-- The `system_status` step.  The source interpolates the construction-time
clock (`new Date().toLocaleString('pt-BR')`) into the message; the rendered
date is modelled as a fixed sample — no claim depends on its text. -/
def systemStatusStep : FlowStep :=
  { id := "system_status"
    name := "Status do Sistema"
    message := "📊 *Status do Sistema*\n\n✅ Sistema GOSAC: Online\n✅ Base de Dados: Conectada\n✅ Chatbot: Funcionando\n\n🕐 Última verificação: 01/01/2024, 00:00:00\n\n*O sistema está funcionando normalmente.*"
    nextStep := some (.static "welcome") }

/-- The `help_menu` step. -/
def helpMenuStep : FlowStep :=
  { id := "help_menu"
    name := "Menu de Ajuda"
    message := "❓ *Central de Ajuda*\n\n*Como usar o bot:*\n\n• Digite o número da opção desejada\n• Use *0* para voltar ao passo anterior\n• Use *#* para recomeçar do início\n• Todas as opções são numeradas para facilitar\n\n*Comandos disponíveis:*\n- Números (1, 2, 3...) para navegar\n- 0 para voltar\n- # para recomeçar\n\n*Precisa de mais ajuda?* Entre em contato com nosso suporte."
    nextStep := some (.static "welcome") }

/-- The `create_ticket` placeholder step. -/
def createTicketStep : FlowStep :=
  { id := "create_ticket"
    name := "Criar Ticket"
    message := "➕ *Criar Novo Ticket*\n\nEsta funcionalidade será implementada em breve.\n\nPor enquanto, você pode usar as outras opções do menu principal."
    nextStep := some (.static "tickets_menu") }

/-- The `list_tickets` placeholder step. -/
def listTicketsStep : FlowStep :=
  { id := "list_tickets"
    name := "Listar Tickets"
    message := "📋 *Seus Tickets*\n\nEsta funcionalidade será implementada em breve.\n\nAqui você poderá visualizar todos os seus tickets ativos e histórico."
    nextStep := some (.static "tickets_menu") }

/-- The `update_ticket` placeholder step. -/
def updateTicketStep : FlowStep :=
  { id := "update_ticket"
    name := "Atualizar Ticket"
    message := "✏️ *Atualizar Status do Ticket*\n\nEsta funcionalidade será implementada em breve.\n\nAqui você poderá alterar o status dos seus tickets."
    nextStep := some (.static "tickets_menu") }

/-- The `validation_error` pseudo-step: its `nextStep` is the function
returning the top of the history, or `welcome`. -/
def validationErrorStep : FlowStep :=
  { id := "validation_error"
    name := "Erro de Validação"
    message := "❌ *Opção inválida*\n\nPor favor, escolha uma das opções listadas acima digitando o número correspondente.\n\n*Exemplo:* Digite *1* para a primeira opção, *2* para a segunda, etc.\n\nOu use:\n• *0* para voltar\n• *#* para recomeçar"
    nextStep := some (.computed fun _ state =>
      match state.stepHistory.getLast? with
      | some top => top
      | none => "welcome") }

/-- The `error` step. -/
def errorStep : FlowStep :=
  { id := "error"
    name := "Erro"
    message := "🚫 *Ops! Algo deu errado*\n\nOcorreu um erro inesperado. Vamos recomeçar do início para garantir que tudo funcione corretamente.\n\nNão se preocupe, seus dados estão seguros! 😊"
    nextStep := some (.static "welcome")
    allowBack := some false }

/-- The registry contents after `initializeFlows` (the nine `addStep` calls;
all ids are distinct, so the `Map` is this association list). -/
def flowsList : List FlowStep :=
  [ welcomeStep, ticketsMenuStep, systemStatusStep, helpMenuStep,
    createTicketStep, listTicketsStep, updateTicketStep,
    validationErrorStep, errorStep ]

/-- Model of `getStep(stepId)`: `Map.get` on the registry. -/
def getStep (stepId : String) : Option FlowStep :=
  flowsList.find? (fun s => s.id == stepId)

/-- Model of `processStepOptions(userInput, step)`: numeric selection via
`parseInt`, otherwise a first-match scan over the options (label substring
or exact key, both lower-cased), otherwise `validation_error`. -/
def processStepOptions (userInput : String) (step : FlowStep) : String :=
  match step.options with
  | none => "error"
  | some opts =>
    if opts.length = 0 then "error"
    else
      let input := jsTrim userInput
      let inputNumber := jsParseInt input
      match inputNumber with
      | some n =>
        if 1 ≤ n ∧ n ≤ (opts.length : Int) then
          -- the bounds make the lookup total; the default is dead code
          ((opts[n.toNat - 1]?).map (fun o => o.nextStep)).getD "validation_error"
        else
          processOptionScan input opts
      | none => processOptionScan input opts
where
  /-- The `for … of step.options` text-match loop. -/
  processOptionScan (input : String) (opts : List FlowOption) : String :=
    let normalizedInput := jsLower input
    match opts.find? (fun o =>
        jsIncludes (jsLower o.text) normalizedInput ||
        jsLower o.key == normalizedInput) with
    | some o => o.nextStep
    | none => "validation_error"

/-- Renders `index. label` rows, 1-based (`options.map((option, index) => …)`). -/
def renderOptions : Nat → List FlowOption → List String
  | _, [] => []
  | i, o :: rest => (toString i ++ ". " ++ o.text) :: renderOptions (i + 1) rest

/-- Model of `buildStepResponse(step)`: the step message, its numbered options, and
the control hints gated by `allowBack !== false` / `allowRestart !== false`. -/
def buildStepResponse (step : FlowStep) : ChatbotResponse :=
  let base : Option (List String) :=
    match step.options with
    | some opts => if opts.length > 0 then some (renderOptions 1 opts) else none
    | none => none
  let controlOptions : List String :=
    (if step.allowBack ≠ some false then ["0. ⬅️ Voltar"] else []) ++
    (if step.allowRestart ≠ some false then ["#. 🔄 Recomeçar"] else [])
  { message := step.message
    options :=
      if controlOptions.length > 0 then some (base.getD [] ++ controlOptions)
      else base
    shouldEnd := none }

/-- Model of `processUserInput(userInput, currentStepId, state)`: resolve the next
step id (computed function, static id, or the options table), fall back to
`welcome` when the current or resolved step is unregistered, and build the
response for the (possibly substituted) next step. -/
def processUserInput (userInput : String) (currentStepId : String)
    (state : ConversationState) : String × ChatbotResponse :=
  match getStep currentStepId with
  | none =>
    ("welcome", { message := "Ops! Algo deu errado. Vamos recomeçar do início.", shouldEnd := some false })
  | some currentStep =>
    let nextStepId0 :=
      match currentStep.nextStep with
      | some (.computed f) => f userInput state
      | some (.static s) => s
      | none => processStepOptions userInput currentStep
    match getStep nextStepId0 with
    | some nextStep => (nextStepId0, buildStepResponse nextStep)
    | none =>
      -- `nextStep` is absent: substitute `welcome` (registered, so the
      -- `getD` default is dead code mirroring the source's `!` assertion)
      ("welcome", buildStepResponse ((getStep "welcome").getD welcomeStep))

/-! ## ConversationStateService (src/chatbot/services/conversation-state.service.ts)

The service keeps two `Map`s keyed by `userId` (`conversations`,
`messageHistory`); every operation touches only the caller's key, so the
model is the per-user slice. -/

/-- The per-user slice of the two service maps: `conv` is
`conversations.get(userId)`, `msgs` is `messageHistory.get(userId) ?? []`
(the absent map entry and the empty log behave identically everywhere). -/
structure UserStore where
  conv : Option ConversationState
  msgs : List ChatMessage
deriving Repr

/-- Model of `initConversationStore(userId)`: the fresh session record. -/
def initConversation (u : String) (now : Int) : ConversationState :=
  { userId := u
    currentStep := "welcome"
    stepHistory := []
    lastMessageTime := now
    isActive := true
    data := []
    waitingFor := none
    attempts := 0 }

/-- Model of `initConversationStore(userId)`: installs a fresh session and clears
the user's message log. -/
def initConversationStore (u : String) (now : Int) : UserStore :=
  { conv := some (initConversation u now), msgs := [] }

/-- Model of `getConversationState(userId)`: lazily create, then refresh
`lastMessageTime`. -/
def getConversationState (now : Int) (u : String) (st : UserStore) :
    ConversationState × UserStore :=
  match st.conv with
  | none =>
    -- `initConversationStore` also resets the message log
    let s := initConversation u now
    (s, { conv := some s, msgs := [] })
  | some s0 =>
    let s := { s0 with lastMessageTime := now }
    (s, { st with conv := some s })

/-- Model of `updateConversationState(userId, updates)`: the callers always pass the
whole session object, so `Object.assign` replaces every field; then
`lastMessageTime` is refreshed and the record stored. -/
def updateConversationState (now : Int) (u : String)
    (updates : ConversationState) (st : UserStore) : UserStore :=
  let fetched := getConversationState now u st
  { fetched.2 with conv := some { updates with lastMessageTime := now } }

/-- Model of `moveToStep(userId, stepId)`: on a real change, push the old step, reset
attempts; otherwise only the activity refresh happens. -/
def moveToStep (now : Int) (u : String) (stepId : String) (st : UserStore) : UserStore :=
  let fetched := getConversationState now u st
  let state := fetched.1
  let state2 :=
    if state.currentStep ≠ stepId then
      { state with
          stepHistory := state.stepHistory ++ [state.currentStep]
          currentStep := stepId
          attempts := 0
          waitingFor := none }
    else state
  updateConversationState now u state2 fetched.2

/-- Model of `goBackToPreviousStep(userId)`: pop the history if non-empty
(`true`), else change nothing (`false`). -/
def goBackToPreviousStep (now : Int) (u : String) (st : UserStore) :
    Bool × UserStore :=
  let fetched := getConversationState now u st
  let state := fetched.1
  match state.stepHistory.getLast? with
  | some previousStep =>
    let state2 :=
      { state with
          currentStep := previousStep
          stepHistory := state.stepHistory.dropLast
          attempts := 0
          waitingFor := none }
    (true, updateConversationState now u state2 fetched.2)
  | none => (false, fetched.2)

/-- Model of `restartConversation(userId)`. -/
def restartConversation (u : String) (now : Int) (_st : UserStore) : UserStore :=
  initConversationStore u now

/-- Model of `incrementAttempts(userId)`: bump and return the new count. -/
def incrementAttempts (now : Int) (u : String) (st : UserStore) :
    Nat × UserStore :=
  let fetched := getConversationState now u st
  let state2 := { fetched.1 with attempts := fetched.1.attempts + 1 }
  (state2.attempts, updateConversationState now u state2 fetched.2)

/-- Model of `addMessage(userId, message)`: append, capped at the 50 most recent. -/
def addMessage (m : ChatMessage) (st : UserStore) : UserStore :=
  let history := st.msgs ++ [m]
  let history2 :=
    if history.length > 50 then history.drop (history.length - 50) else history
  { st with msgs := history2 }

/-- Model of `shouldDebounce(userId, debounceMs)`: true only when at least two
incoming entries exist and the two most recent ones are closer than the
window. -/
def shouldDebounce (st : UserStore) (debounceMs : Int) : Bool :=
  let history := st.msgs
  let incomingMessages := history.filter (fun m => m.messageType == MessageType.incoming)
  if incomingMessages.length ≤ 1 then false
  else
    match incomingMessages[incomingMessages.length - 1]?,
          incomingMessages[incomingMessages.length - 2]? with
    | some lastIncoming, some secondLastIncoming =>
      decide (lastIncoming.timestamp - secondLastIncoming.timestamp < debounceMs)
    | _, _ => false

/-- Model of `isRepeatedMessage(userId, message)`: does the candidate (normalised)
equal one of the two most recent outgoing entries? -/
def isRepeatedMessage (message : String) (st : UserStore) : Bool :=
  let outgoingMessages :=
    (st.msgs.filter (fun m => m.messageType == MessageType.outgoing))
  let lastTwo := outgoingMessages.drop (outgoingMessages.length - 2)
  lastTwo.any (fun m => jsTrim (jsLower m.message) == jsTrim (jsLower message))

/-! ## ChatbotService (src/chatbot/services/chatbot.service.ts) -/

/-- Model of `DEBOUNCE_TIME` (ms). -/
def DEBOUNCE_TIME : Int := 2000

/-- Model of `MAX_ATTEMPTS`. -/
def MAX_ATTEMPTS : Nat := 3

/-- Model of `createSimpleResponse(message)`. -/
def createSimpleResponse (message : String) : ChatbotResponse :=
  { message := message }

/-- Model of `getWelcomeMessage()`: the hard-coded fallback welcome text. -/
def getWelcomeMessage : String :=
  "🤖 *Olá! Bem-vindo(a) ao Verador Bot!*\n\nSou seu assistente virtual para gerenciamento de tickets e atendimento.\n\n*Como posso ajudá-lo hoje?*\n\n1. 🎫 Gerenciar Tickets\n2. 📊 Status do Sistema  \n3. ❓ Ajuda"

/-- Model of `addIncomingMessage(userId, message)`. -/
def addIncomingMessage (now : Int) (u : String) (message : String) (st : UserStore) : UserStore :=
  addMessage { userId := u, message := message, timestamp := now, messageType := .incoming } st

/-- Model of `addOutgoingMessage(userId, message)`: suppressed when it duplicates a
recent outgoing entry. -/
def addOutgoingMessage (now : Int) (u : String) (message : String) (st : UserStore) : UserStore :=
  if isRepeatedMessage message st then st
  else addMessage { userId := u, message := message, timestamp := now, messageType := .outgoing } st

/-- Model of `getWelcomeResponse(userId)`. -/
def getWelcomeResponse (now : Int) (u : String) (st : UserStore) :
    ChatbotResponse × UserStore :=
  match getStep "welcome" with
  | some w =>
    let response := buildStepResponse w
    (response, addOutgoingMessage now u response.message st)
  | none => (createSimpleResponse getWelcomeMessage, st)

/-- Model of `handleError(userId)`: restart, then render the `error` step. -/
def handleError (now : Int) (u : String) (st : UserStore) :
    ChatbotResponse × UserStore :=
  let st1 := restartConversation u now st
  match getStep "error" with
  | some es =>
    let response := buildStepResponse es
    (response, addOutgoingMessage now u response.message st1)
  | none => getWelcomeResponse now u st1

/-- Model of `buildValidationErrorMessage(attempts, customError?)`: the tiered retry
text. -/
def buildValidationErrorMessage (attempts : Nat) (customError : Option String) : String :=
  let message := customError.getD "❌ Opção inválida."
  if attempts = 1 then
    message ++ "\n\nPor favor, digite uma das opções listadas."
  else if attempts = 2 then
    message ++ "\n\n⚠️ Atenção: Digite apenas o *número* da opção desejada."
  else
    message ++ "\n\n🚨 Última tentativa! Use apenas os números das opções."

/-- The "too many invalid attempts" reset message. -/
def tooManyAttemptsMessage : String :=
  "🚫 Muitas tentativas inválidas. Vamos recomeçar do início.\n\n" ++ getWelcomeMessage

/-- Model of `handleValidationError(userId, errorMessage)`. -/
def handleValidationError (now : Int) (u : String) (errorMessage : String)
    (st : UserStore) : ChatbotResponse × UserStore :=
  let bumped := incrementAttempts now u st
  let attempts := bumped.1
  if attempts ≥ MAX_ATTEMPTS then
    (createSimpleResponse tooManyAttemptsMessage, restartConversation u now bumped.2)
  else
    let fullMessage := buildValidationErrorMessage attempts (some errorMessage)
    (createSimpleResponse fullMessage, addOutgoingMessage now u fullMessage bumped.2)

/-- Model of `handleBackCommand(userId, state)` (the `state` parameter is unused in
the source body; every read goes through the service). -/
def handleBackCommand (now : Int) (u : String) (st : UserStore) :
    ChatbotResponse × UserStore :=
  let went := goBackToPreviousStep now u st
  if !went.1 then
    (createSimpleResponse "⚠️ Não é possível voltar mais. Você já está no início.\n\nVamos continuar daqui:", went.2)
  else
    let fetched := getConversationState now u went.2
    match getStep fetched.1.currentStep with
    | none =>
      let st2 := restartConversation u now fetched.2
      getWelcomeResponse now u st2
    | some currentStep =>
      let response0 := buildStepResponse currentStep
      let response := { response0 with message := "⬅️ *Voltando...*\n\n" ++ response0.message }
      (response, addOutgoingMessage now u response.message fetched.2)

/-- Model of `handleRestartCommand(userId)`. -/
def handleRestartCommand (now : Int) (u : String) (st : UserStore) :
    ChatbotResponse × UserStore :=
  let st1 := restartConversation u now st
  let fetched := getWelcomeResponse now u st1
  let response := { fetched.1 with message := "🔄 *Reiniciando conversa...*\n\n" ++ fetched.1.message }
  (response, addOutgoingMessage now u response.message fetched.2)

/-- The `^[1-9]\d*$` test in the first-turn carve-out. -/
def isNumericOption (s : String) : Bool :=
  match s.data with
  | [] => false
  | c :: cs => ('1' ≤ c ∧ c ≤ '9') && cs.all Char.isDigit

/-- Lines 161–187 of `processNormalMessage`: resolve the transition, then
either the `validation_error` bookkeeping or the move to the next step. -/
def processResolve (now : Int) (u : String) (message : String)
    (state : ConversationState) (st : UserStore) : ChatbotResponse × UserStore :=
  let resolved := processUserInput message state.currentStep state
  let nextStepId := resolved.1
  let response := resolved.2
  if nextStepId = "validation_error" then
    let bumped := incrementAttempts now u st
    let attempts := bumped.1
    if attempts ≥ MAX_ATTEMPTS then
      (createSimpleResponse tooManyAttemptsMessage, restartConversation u now bumped.2)
    else
      let errorMessage := buildValidationErrorMessage attempts none
      let response2 := { response with message := errorMessage }
      (response2, addOutgoingMessage now u response2.message bumped.2)
  else
    let st1 := moveToStep now u nextStepId st
    (response, addOutgoingMessage now u response.message st1)

/-- The `currentStep.action` guard of `processNormalMessage` (a rejected
promise is caught and handled by `handleError`). -/
def processAfterValidation (now : Int) (u : String) (message : String)
    (state : ConversationState) (currentStep : FlowStep) (st : UserStore) :
    ChatbotResponse × UserStore :=
  match currentStep.action with
  | some act =>
    match act message state with
    | .error _ => handleError now u st
    | .ok _ => processResolve now u message state st
  | none => processResolve now u message state st

/-- Model of `processNormalMessage(userId, message, state)`. -/
def processNormalMessage (now : Int) (u : String) (message : String)
    (state : ConversationState) (st : UserStore) : ChatbotResponse × UserStore :=
  match getStep state.currentStep with
  | none =>
    let st1 := restartConversation u now st
    getWelcomeResponse now u st1
  | some currentStep =>
    if state.currentStep = "welcome" ∧ state.stepHistory = [] ∧
        ¬ isNumericOption (jsTrim message) then
      -- first-turn carve-out: just (re-)show the welcome menu
      let response := buildStepResponse currentStep
      (response, addOutgoingMessage now u response.message st)
    else
      match currentStep.validation with
      | some rule =>
        let validation := validateInput message rule
        if !validation.isValid then
          handleValidationError now u (validation.errorMessage.getD "") st
        else
          processAfterValidation now u message state currentStep st
      | none => processAfterValidation now u message state currentStep st

/-- Model of `processMessage(userId, message)`: the full turn.  The surrounding
`try/catch` can only be entered through a rejected `step.action` promise,
which the model already routes to `handleError`; all other code is total. -/
def processMessage (now : Int) (u : String) (message : String) (st : UserStore) :
    ChatbotResponse × UserStore :=
  let sanitizedMessage := sanitizeInput message
  let st1 := addIncomingMessage now u sanitizedMessage st
  if shouldDebounce st1 DEBOUNCE_TIME then
    (createSimpleResponse "⏱️ Por favor, aguarde um momento antes de enviar outra mensagem.", st1)
  else
    let fetched := getConversationState now u st1
    let state := fetched.1
    let st2 := fetched.2
    match (isControlKeyword sanitizedMessage).1 with
    | some .back => handleBackCommand now u st2
    | some .restart => handleRestartCommand now u st2
    | none => processNormalMessage now u sanitizedMessage state st2

/-! ## Spec-side definitions and fixtures used by the claim theorems -/

/-- Modelled from the spec wording of the numeric branch of transition
resolution (for comparison with `processStepOptions`): the trimmed input
"parses as a positive integer k" — i.e. it is itself a decimal numeral. -/
def specPosIntVal (s : String) : Option Int :=
  match s.data with
  | [] => none
  | l => if l.all Char.isDigit then some (decDigitsVal l) else none

/-- Modelled from the spec wording of options-table resolution, for
comparison with `processStepOptions` (C3): identical to the source except
that the numeric branch requires the whole trimmed input to be a positive
integer. -/
def specResolveOptions (userInput : String) (step : FlowStep) : String :=
  match step.options with
  | none => "error"
  | some opts =>
    if opts.length = 0 then "error"
    else
      let input := jsTrim userInput
      match specPosIntVal input with
      | some k =>
        if 1 ≤ k ∧ k ≤ (opts.length : Int) then
          ((opts[k.toNat - 1]?).map (fun o => o.nextStep)).getD "validation_error"
        else
          processStepOptions.processOptionScan input opts
      | none => processStepOptions.processOptionScan input opts

/-- The claim's restart keyword set (C7): `{#, inicio, recomecar, restart,
start}` — note it lacks the source's extra keyword `iniciar`. -/
def specRestartKeywords : List String := ["#", "inicio", "recomecar", "restart", "start"]

/-- C1 counterexample fixture: a session parked at `welcome` (which sets
`allowRestart := false`) with a non-zero attempt counter. -/
def c1Session : ConversationState :=
  { userId := "u", currentStep := "welcome", stepHistory := [], lastMessageTime := 0,
    isActive := true, data := [], waitingFor := none, attempts := 2 }

/-- C1 counterexample fixture: the store slice holding `c1Session`. -/
def c1Store : UserStore := { conv := some c1Session, msgs := [] }

/-- C1 witness fixture: a session at the `error` step (which sets
`allowBack := false`) with a non-empty history. -/
def c1bSession : ConversationState :=
  { userId := "u", currentStep := "error", stepHistory := ["welcome"], lastMessageTime := 0,
    isActive := true, data := [], waitingFor := none, attempts := 0 }

/-- C1 witness fixture: the store slice holding `c1bSession`. -/
def c1bStore : UserStore := { conv := some c1bSession, msgs := [] }

/-- C2 witness fixture: a session at `tickets_menu` that has already failed
twice. -/
def c2Session : ConversationState :=
  { userId := "u", currentStep := "tickets_menu", stepHistory := ["welcome"], lastMessageTime := 0,
    isActive := true, data := [], waitingFor := none, attempts := 2 }

/-- C2 witness fixture: the store slice holding `c2Session`. -/
def c2Store : UserStore := { conv := some c2Session, msgs := [] }

/-- C8 witness fixture: a session with a non-zero attempt counter and a
non-empty history. -/
def c8Session : ConversationState :=
  { userId := "u", currentStep := "a", stepHistory := ["welcome"], lastMessageTime := 0,
    isActive := true, data := [], waitingFor := none, attempts := 5 }

/-- C8 witness fixture: the store slice holding `c8Session`. -/
def c8Store : UserStore := { conv := some c8Session, msgs := [] }

/-- C10 counterexample fixture: an options table where an earlier option
matches by key while only a later option's label contains the input. -/
def c10Options : List FlowOption :=
  [ { key := "zz", text := "aaa", nextStep := "t1" }
  , { key := "qq", text := "xzzx", nextStep := "t2" } ]

/-- C10 counterexample fixture: a step carrying `c10Options`. -/
def c10Step : FlowStep :=
  { id := "s", name := "s", message := "m", options := some c10Options }

/-- C5 scaffolding: were the successive `moveTo` targets each distinct from
the then-current step? -/
def validMovesFrom (cur : String) : List String → Bool
  | [] => true
  | id :: rest => (id != cur) && validMovesFrom id rest

/-- C5 scaffolding: fold `moveToStep` over a list of targets. -/
def moveSeq (now : Int) (u : String) (ids : List String) (st : UserStore) : UserStore :=
  ids.foldl (fun acc id => moveToStep now u id acc) st

/-- C5 scaffolding: call `goBackToPreviousStep` up to `n` times, reporting
whether every call succeeded. -/
def goBackRepeat (now : Int) (u : String) : Nat → UserStore → Bool × UserStore
  | 0, st => (true, st)
  | n + 1, st =>
    let r := goBackToPreviousStep now u st
    if r.1 then goBackRepeat now u n r.2 else (false, r.2)

/-- C5 witness fixture: a fresh session at `welcome`. -/
def c5Session : ConversationState := initConversation "u" 0

/-- C5 witness fixture: the store slice holding `c5Session`. -/
def c5Store : UserStore := { conv := some c5Session, msgs := [] }

/-- C5 counterexample fixture: a session that already carries one history
entry before any of the counted `moveTo` calls. -/
def c5xSession : ConversationState :=
  { userId := "u", currentStep := "welcome", stepHistory := ["x"], lastMessageTime := 0,
    isActive := true, data := [], waitingFor := none, attempts := 0 }

/-- C5 counterexample fixture: the store slice holding `c5xSession`. -/
def c5xStore : UserStore := { conv := some c5xSession, msgs := [] }

/-! ## Helper lemmas -/

/-! ## Sanity examples: concrete evaluations of the embedded code -/

example : jsParseInt "2abc" = some 2 := by decide

example : jsParseInt "  12" = some 12 := by decide

example : jsParseInt "-0x2" = some (-2) := by decide

example : jsParseInt "abc" = none := by decide

example : jsParseInt "" = none := by decide

example : jsTrim "  ola  " = "ola" := by decide

example : jsLower "VoLtAr" = "voltar" := by decide

example : jsIncludes "gerenciar tickets" "tick" = true := by decide

example : jsIncludes "abc" "" = true := by decide

example : sanitizeInput "  #  " = "#" := by decide

example : sanitizeInput "a<script>alert(1)</script>b" = "ab" := by decide

example : sanitizeInput "a<b>c" = "abc" := by decide

example : (isControlKeyword "  VOLTAR ").1 = some .back := by decide

example : (isControlKeyword "Iniciar").1 = some .restart := by decide

example : (isControlKeyword "12").1 = none := by decide

example : (validateInput "(11) 91234-5678" { type := .phone }).isValid = true := by decide

example : (validateInput "12345678" { type := .phone }).isValid = false := by decide

example : getStep "welcome" = some welcomeStep := by rfl

example : processStepOptions "2" welcomeStep = "system_status" := by rfl

example : processStepOptions "2abc" welcomeStep = "system_status" := by rfl

example : processStepOptions " STATUS " welcomeStep = "system_status" := by rfl

example : processStepOptions "tick" welcomeStep = "tickets_menu" := by rfl

example : processStepOptions "" welcomeStep = "tickets_menu" := by rfl

example : processStepOptions "9" welcomeStep = "validation_error" := by rfl

example : (processUserInput "1" "welcome" (⟨"u", "welcome", [], 0, true, [], none, 0⟩)).1 = "tickets_menu" := by rfl

example :
    (processMessage 0 "u" "ola" { conv := none, msgs := [] }).1.message =
      welcomeStep.message := by rfl

example :
    (processMessage 0 "u" "ola" { conv := none, msgs := [] }).1.options =
      some ["1. 🎫 Gerenciar Tickets", "2. 📊 Status do Sistema", "3. ❓ Ajuda"] := by rfl

theorem strOfEmptyData (a : String) (h : a.data = []) : a = "" := by
  cases a
  simp_all

theorem strAppendNeRight (a b : String) (h : b ≠ "") : a ++ b ≠ "" := by
  intro heq
  have hd := congrArg String.data heq
  rw [String.data_append] at hd
  rcases List.append_eq_nil.mp hd with ⟨_, hb⟩
  exact h (strOfEmptyData b hb)

theorem strAppendNeLeft (a b : String) (h : a ≠ "") : a ++ b ≠ "" := by
  intro heq
  have hd := congrArg String.data heq
  rw [String.data_append] at hd
  rcases List.append_eq_nil.mp hd with ⟨ha, _⟩
  exact h (strOfEmptyData a ha)

theorem getStep_mem (id : String) (s : FlowStep) (h : getStep id = some s) :
    s ∈ flowsList := List.mem_of_find?_eq_some h

theorem registry_message_ne (id : String) (s : FlowStep) (h : getStep id = some s) :
    s.message ≠ "" := by
  have hm := getStep_mem id s h
  simp only [flowsList, List.mem_cons, List.not_mem_nil, or_false] at hm
  rcases hm with h | h | h | h | h | h | h | h | h <;> (subst h; decide)

theorem getConversationState_some (now : Int) (u : String) (st : UserStore)
    (s : ConversationState) (h : st.conv = some s) :
    getConversationState now u st =
      ({ s with lastMessageTime := now },
       { st with conv := some { s with lastMessageTime := now } }) := by
  unfold getConversationState
  rw [h]

theorem updateConversationState_some (now : Int) (u : String)
    (upd : ConversationState) (st : UserStore) (s : ConversationState)
    (h : st.conv = some s) :
    updateConversationState now u upd st =
      { st with conv := some { upd with lastMessageTime := now } } := by
  unfold updateConversationState
  rw [getConversationState_some now u st s h]

theorem moveToStep_spec (now : Int) (u : String) (id : String) (st : UserStore)
    (s : ConversationState) (h : st.conv = some s) (hne : s.currentStep ≠ id) :
    moveToStep now u id st =
      { st with conv := some { s with
          currentStep := id,
          stepHistory := s.stepHistory ++ [s.currentStep],
          attempts := 0,
          waitingFor := none,
          lastMessageTime := now } } := by
  simp [moveToStep, getConversationState, updateConversationState, h, hne]

theorem moveToStep_noop (now : Int) (u : String) (id : String) (st : UserStore)
    (s : ConversationState) (h : st.conv = some s) (heq : s.currentStep = id) :
    moveToStep now u id st =
      { st with conv := some { s with lastMessageTime := now } } := by
  simp [moveToStep, getConversationState, updateConversationState, h, heq]

theorem goBack_pop (now : Int) (u : String) (st : UserStore)
    (s : ConversationState) (p : String) (h : st.conv = some s)
    (hp : s.stepHistory.getLast? = some p) :
    goBackToPreviousStep now u st =
      (true, { st with conv := some { s with
          currentStep := p,
          stepHistory := s.stepHistory.dropLast,
          attempts := 0,
          waitingFor := none,
          lastMessageTime := now } }) := by
  simp [goBackToPreviousStep, getConversationState, updateConversationState, h, hp]

theorem goBack_fail (now : Int) (u : String) (st : UserStore)
    (s : ConversationState) (h : st.conv = some s)
    (hp : s.stepHistory = []) :
    goBackToPreviousStep now u st =
      (false, { st with conv := some { s with lastMessageTime := now } }) := by
  simp [goBackToPreviousStep, getConversationState, updateConversationState, h, hp]

theorem incrementAttempts_spec (now : Int) (u : String) (st : UserStore)
    (s : ConversationState) (h : st.conv = some s) :
    incrementAttempts now u st =
      (s.attempts + 1,
       { st with conv := some { s with attempts := s.attempts + 1, lastMessageTime := now } }) := by
  simp [incrementAttempts, getConversationState, updateConversationState, h]

theorem restart_spec (u : String) (now : Int) (st : UserStore) :
    restartConversation u now st = { conv := some (initConversation u now), msgs := [] } := rfl

theorem jsIsWs_not_digit (c : Char) (h : jsIsWs c = true) : c.isDigit = false := by
  simp only [jsIsWs, Bool.or_eq_true, beq_iff_eq] at h
  rcases h with ((((((h|h)|h)|h)|h)|h)|h) <;> (subst h; decide)

theorem countP_dropWhile_ws (p q : Char → Bool) (l : List Char)
    (hpq : ∀ a, q a = true → p a = false) :
    (l.dropWhile q).countP p = l.countP p := by
  conv_rhs => rw [← List.takeWhile_append_dropWhile (p := q) (l := l)]
  rw [List.countP_append]
  have hz : (l.takeWhile q).countP p = 0 := by
    rw [List.countP_eq_zero]
    intro a ha
    simp [hpq a (List.mem_takeWhile_imp ha)]
  omega

theorem countP_reverse_eq (p : Char → Bool) (l : List Char) :
    l.reverse.countP p = l.countP p :=
  (List.reverse_perm l).countP_eq p

theorem digitsOf_trim_len (s : String) :
    (digitsOf (jsTrim s)).length = (digitsOf s).length := by
  simp only [digitsOf, jsTrim, jsTrimList]
  rw [← List.countP_eq_length_filter, ← List.countP_eq_length_filter]
  rw [countP_reverse_eq, countP_dropWhile_ws _ _ _ jsIsWs_not_digit,
    countP_reverse_eq, countP_dropWhile_ws _ _ _ jsIsWs_not_digit]

theorem jsTrim_empty_all_ws (s : String) (h : jsTrim s = "") :
    ∀ c ∈ s.data, jsIsWs c = true := by
  have hd := congrArg String.data h
  simp only [jsTrim] at hd
  have hnil : jsTrimList s.data = [] := hd
  unfold jsTrimList at hnil
  rw [List.reverse_eq_nil_iff, List.dropWhile_eq_nil_iff] at hnil
  intro c hc
  rcases List.mem_append.mp
    (by rw [List.takeWhile_append_dropWhile (p := jsIsWs) (l := s.data)]; exact hc :
      c ∈ s.data.takeWhile jsIsWs ++ s.data.dropWhile jsIsWs) with hmem | hmem
  · exact List.mem_takeWhile_imp hmem
  · exact hnil c (List.mem_reverse.mpr hmem)

theorem digitsOf_nil_of_trim_empty (s : String) (h : jsTrim s = "") :
    digitsOf s = [] := by
  rw [digitsOf, List.filter_eq_nil_iff]
  intro c hc
  simp [jsIsWs_not_digit c (jsTrim_empty_all_ws s h c hc)]

/-- C6 (amended): under a plain `phone` rule (no extra checks configured)
an input is accepted exactly when stripping non-digits leaves 10 or 11
digits. -/
theorem C6_amended_phone (input : String) (rule : ValidationRule)
    (ht : rule.type = VType.phone) (hreq : rule.required = none)
    (hmin : rule.minLength = none) (hmax : rule.maxLength = none)
    (hpat : rule.pattern = none) :
    (validateInput input rule).isValid = true ↔
      (10 ≤ (digitsOf input).length ∧ (digitsOf input).length ≤ 11) := by
  unfold validateInput
  by_cases hemp : input = "" ∨ jsTrim input = ""
  · rw [if_pos hemp]
    have hdig : digitsOf input = [] := by
      rcases hemp with h | h
      · subst h; rfl
      · exact digitsOf_nil_of_trim_empty input h
    rw [hdig]
    simp [hreq]
  · rw [if_neg hemp]
    simp only [hmin, hmax, ht, Bool.false_eq_true, if_false]
    unfold validatePhone
    rw [hpat]
    have hlen := digitsOf_trim_len input
    simp only [digitsOf] at hlen ⊢
    split
    · rename_i hrange
      refine iff_of_false (by simp) ?_
      rintro ⟨hb1, hb2⟩
      rcases hrange with hr | hr <;> (rw [hlen] at hr; omega)
    · rename_i hrange
      push_neg at hrange
      rcases hrange with ⟨hr1, hr2⟩
      rw [hlen] at hr1 hr2
      exact iff_of_true rfl ⟨by omega, by omega⟩

theorem C6_amended_phone_witness :
    (validateInput "11912345678" { type := VType.phone }).isValid = true ∧
    10 ≤ (digitsOf "11912345678").length ∧ (digitsOf "11912345678").length ≤ 11 := by
  have h := (C6_amended_phone "11912345678" { type := VType.phone } rfl rfl rfl rfl rfl).mpr
    (by decide)
  exact ⟨h, by decide, by decide⟩

/-- C6 counterexample: eight digits lie inside the claim's 8–11 band but
the code rejects them (it requires 10–11). -/
theorem C6_counterexample :
    (8 ≤ (digitsOf "12345678").length ∧ (digitsOf "12345678").length ≤ 11) ∧
    (validateInput "12345678" { type := VType.phone }).isValid = false := by
  exact ⟨by decide, by decide⟩

theorem restart_back_disjoint :
    ∀ x ∈ restartKeywords, x ∉ backKeywords := by decide

/-- C7 (amended): classification is exact membership of the normalized
input in the fixed keyword lists (the restart list also contains
`iniciar`). -/
theorem C7_amended_classification (s : String) :
    ((isControlKeyword s).1 = some ControlType.back ↔ normalizeInput s ∈ backKeywords) ∧
    ((isControlKeyword s).1 = some ControlType.restart ↔ normalizeInput s ∈ restartKeywords) ∧
    ((isControlKeyword s).1 = none ↔
      (normalizeInput s ∉ backKeywords ∧ normalizeInput s ∉ restartKeywords)) := by
  by_cases hb : normalizeInput s ∈ backKeywords <;>
    by_cases hr : normalizeInput s ∈ restartKeywords
  · exact absurd hb (restart_back_disjoint _ hr)
  · simp [isControlKeyword, hb, hr]
  · simp [isControlKeyword, hb, hr]
  · simp [isControlKeyword, hb, hr]

/-- C7 counterexample: `iniciar` is classified as a restart keyword but is
not in the claim's restart set. -/
theorem C7_counterexample :
    (isControlKeyword "iniciar").1 = some ControlType.restart ∧
    "iniciar" ∉ specRestartKeywords ∧ "iniciar" ∉ backKeywords := by
  exact ⟨rfl, by decide, by decide⟩

theorem getElem_concat_pair (rest : List ChatMessage) (b a : ChatMessage) :
    (rest ++ [b, a])[(rest ++ [b, a]).length - 1]? = some a ∧
    (rest ++ [b, a])[(rest ++ [b, a]).length - 2]? = some b := by
  have hlen : (rest ++ [b, a]).length = rest.length + 2 := by simp
  constructor
  · rw [hlen, show rest.length + 2 - 1 = rest.length + 1 from rfl,
      List.getElem?_append_right (by omega)]
    simp
  · rw [hlen, show rest.length + 2 - 2 = rest.length from rfl,
      List.getElem?_append_right (by omega)]
    simp

theorem debounce_core_iff (l : List ChatMessage) (w : Int) :
    ((if l.length ≤ 1 then false
      else
        match l[l.length - 1]?, l[l.length - 2]? with
        | some lastIncoming, some secondLastIncoming =>
          decide (lastIncoming.timestamp - secondLastIncoming.timestamp < w)
        | _, _ => false) = true) ↔
    ∃ a b rest, l = rest ++ [b, a] ∧ a.timestamp - b.timestamp < w := by
  rcases hrev : l.reverse with _ | ⟨a, tl⟩
  · have hnil : l = [] := by simpa using congrArg List.reverse hrev
    subst hnil
    refine iff_of_false (by simp) ?_
    rintro ⟨a, b, rest, hdec, -⟩
    have := congrArg List.length hdec
    simp at this
  · rcases tl with _ | ⟨b, t⟩
    · have hone : l = [a] := by simpa using congrArg List.reverse hrev
      subst hone
      refine iff_of_false (by simp) ?_
      rintro ⟨a', b', rest, hdec, -⟩
      have := congrArg List.length hdec
      simp at this
    · have hdecomp : l = t.reverse ++ [b, a] := by
        simpa using congrArg List.reverse hrev
      subst hdecomp
      have hg := getElem_concat_pair t.reverse b a
      rw [if_neg (by simp)]
      rw [hg.1, hg.2]
      simp only [decide_eq_true_eq]
      constructor
      · intro hdc
        exact ⟨a, b, t.reverse, rfl, hdc⟩
      · rintro ⟨a', b', rest', hdec', hlt⟩
        have hg' := getElem_concat_pair rest' b' a'
        rw [hdec'] at hg
        have ha : a' = a := by
          have := hg.1.symm.trans hg'.1
          simpa using this.symm
        have hb : b' = b := by
          have := hg.2.symm.trans hg'.2
          simpa using this.symm
        subst ha; subst hb
        exact hlt

theorem shouldDebounce_eq_core (st : UserStore) (w : Int) :
    shouldDebounce st w =
      (let l := st.msgs.filter (fun m => m.messageType == MessageType.incoming)
       if l.length ≤ 1 then false
       else
         match l[l.length - 1]?, l[l.length - 2]? with
         | some lastIncoming, some secondLastIncoming =>
           decide (lastIncoming.timestamp - secondLastIncoming.timestamp < w)
         | _, _ => false) := rfl

/-- C4: the debounce predicate holds exactly when at least two incoming
log entries exist and the gap between the two most recent ones is below
the window; with at most one incoming entry it is always false. -/
theorem C4_debounce (st : UserStore) (w : Int) :
    (shouldDebounce st w = true ↔
      ∃ a b rest,
        st.msgs.filter (fun m => m.messageType == MessageType.incoming) = rest ++ [b, a] ∧
        a.timestamp - b.timestamp < w) ∧
    ((st.msgs.filter (fun m => m.messageType == MessageType.incoming)).length ≤ 1 →
      shouldDebounce st w = false) := by
  constructor
  · rw [shouldDebounce_eq_core]
    exact debounce_core_iff _ w
  · intro hlen
    rw [shouldDebounce_eq_core]
    simp only [if_pos hlen]

theorem C4_debounce_witness :
    shouldDebounce { conv := none, msgs := [] } 2000 = false :=
  (C4_debounce { conv := none, msgs := [] } 2000).2 (by decide)

/-- C8: attempts is 0 right after a step-changing `moveToStep`, after a
successful `goBackToPreviousStep` and after `restartConversation`;
`incrementAttempts` returns and stores exactly the old count plus one. -/
theorem C8_attempts_invariant (now : Int) (u : String) (st : UserStore)
    (s : ConversationState) (id : String) :
    (st.conv = some s → s.currentStep ≠ id →
      ((moveToStep now u id st).conv).map ConversationState.attempts = some 0) ∧
    ((goBackToPreviousStep now u st).1 = true →
      (((goBackToPreviousStep now u st).2).conv).map ConversationState.attempts = some 0) ∧
    (((restartConversation u now st).conv).map ConversationState.attempts = some 0) ∧
    (st.conv = some s →
      (incrementAttempts now u st).1 = s.attempts + 1 ∧
      (((incrementAttempts now u st).2).conv).map ConversationState.attempts =
        some (s.attempts + 1)) := by
  refine ⟨?_, ?_, ?_, ?_⟩
  · intro h hne
    rw [moveToStep_spec now u id st s h hne]
    rfl
  · intro hok
    unfold goBackToPreviousStep at hok ⊢
    rcases hc : st.conv with _ | s0
    · simp [getConversationState, initConversation, hc] at hok
    · rcases hp : s0.stepHistory.getLast? with _ | p
      · simp [getConversationState, hc, hp] at hok
      · simp [getConversationState, updateConversationState, hc, hp]
  · rfl
  · intro h
    rw [incrementAttempts_spec now u st s h]
    exact ⟨rfl, rfl⟩

theorem C8_attempts_witness :
    ((moveToStep 7 "u" "b" c8Store).conv).map ConversationState.attempts = some 0 ∧
    ((goBackToPreviousStep 7 "u" c8Store).2.conv).map ConversationState.attempts = some 0 ∧
    ((restartConversation "u" 7 c8Store).conv).map ConversationState.attempts = some 0 ∧
    (incrementAttempts 7 "u" c8Store).1 = 6 := by
  have h := C8_attempts_invariant 7 "u" c8Store c8Session "b"
  refine ⟨h.1 rfl (by decide), h.2.1 ?_, h.2.2.1, (h.2.2.2 rfl).1⟩
  decide

theorem occursIn_nil (l : List Char) : occursIn l [] = true := by
  cases l <;> simp [occursIn, leadsWith]

/-- C3 (amended): the numeric branch uses JS `parseInt` (longest integer
literal at the head of the trimmed input); in range it selects by index,
otherwise the option scan (label substring / exact key, lower-cased, first
option in order) decides, defaulting to `validation_error`. -/
theorem C3_amended_resolution (step : FlowStep) (opts : List FlowOption) (input : String)
    (hopts : step.options = some opts) (hne : opts ≠ []) :
    (∀ n : Int, jsParseInt (jsTrim input) = some n → 1 ≤ n → n ≤ (opts.length : Int) →
      ∃ o, opts[n.toNat - 1]? = some o ∧ processStepOptions input step = o.nextStep) ∧
    ((∀ n : Int, jsParseInt (jsTrim input) = some n → ¬(1 ≤ n ∧ n ≤ (opts.length : Int))) →
      processStepOptions input step =
        (match opts.find? (fun o =>
            jsIncludes (jsLower o.text) (jsLower (jsTrim input)) ||
            jsLower o.key == jsLower (jsTrim input)) with
         | some o => o.nextStep
         | none => "validation_error")) := by
  have hlen : ¬ (opts.length = 0) := fun h => hne (List.length_eq_zero.mp h)
  constructor
  · intro n hparse h1 h2
    have hidx : n.toNat - 1 < opts.length := by omega
    refine ⟨opts[n.toNat - 1], List.getElem?_eq_getElem hidx, ?_⟩
    unfold processStepOptions
    rw [hopts]
    simp only [if_neg hlen]
    rw [hparse]
    simp only [if_pos (And.intro h1 h2)]
    rw [List.getElem?_eq_getElem hidx]
    rfl
  · intro hout
    unfold processStepOptions
    rw [hopts]
    simp only [if_neg hlen]
    rcases hparse : jsParseInt (jsTrim input) with _ | n
    · simp only [processStepOptions.processOptionScan]
    · simp only [if_neg (hout n hparse)]
      simp only [processStepOptions.processOptionScan]

theorem C3_amended_witness :
    processStepOptions "2" welcomeStep = "system_status" := by
  obtain ⟨o, ho, hres⟩ := (C3_amended_resolution welcomeStep welcomeOptions "2" rfl (by decide)).1
    2 (by decide) (by decide) (by decide)
  have hov : o = { key := "status", text := "📊 Status do Sistema", nextStep := "system_status" } := by
    have hx := ho.symm.trans
      (show welcomeOptions[1]? =
        some { key := "status", text := "📊 Status do Sistema", nextStep := "system_status" } from rfl)
    exact Option.some.inj hx
  rw [hov] at hres
  exact hres

/-- C3 counterexample: `parseInt` takes the integer literal prefix, so
"2abc" selects option 2 in the source, while under the spec's wording it is
not a positive integer and falls through to (failing) text matching. -/
theorem C3_counterexample :
    processStepOptions "2abc" welcomeStep = "system_status" ∧
    specResolveOptions "2abc" welcomeStep = "validation_error" ∧
    ("system_status" : String) ≠ "validation_error" := by
  exact ⟨rfl, rfl, by decide⟩

/-- C10 (amended): an input that is empty after trimming always selects the
first option; more generally, when the numeric branch does not fire, the
scan selects the first option whose lower-cased label contains the input or
whose lower-cased key equals it (an earlier key match can beat a later
label match). -/
theorem C10_amended_empty_input (step : FlowStep) (o : FlowOption) (os : List FlowOption)
    (input : String) (hopts : step.options = some (o :: os)) :
    (jsTrim input = "" → processStepOptions input step = o.nextStep) ∧
    (∀ o', jsParseInt (jsTrim input) = none →
      (o :: os).find? (fun x =>
          jsIncludes (jsLower x.text) (jsLower (jsTrim input)) ||
          jsLower x.key == jsLower (jsTrim input)) = some o' →
      processStepOptions input step = o'.nextStep) := by
  constructor
  · intro hemp
    unfold processStepOptions
    rw [hopts]
    simp only [if_neg (by simp : ¬ ((o :: os).length = 0))]
    rw [hemp]
    simp only [show jsParseInt "" = none from rfl]
    simp only [processStepOptions.processOptionScan]
    have hfirst : jsIncludes (jsLower o.text) (jsLower "") = true := by
      simp [jsIncludes, jsLower, occursIn_nil]
    rw [List.find?_cons_of_pos _ (by simp [hfirst])]
  · intro o' hparse hfind
    unfold processStepOptions
    rw [hopts]
    simp only [if_neg (by simp : ¬ ((o :: os).length = 0))]
    rw [hparse]
    simp only [processStepOptions.processOptionScan]
    rw [hfind]

theorem C10_amended_witness :
    processStepOptions "   " welcomeStep = "tickets_menu" := by
  have h := (C10_amended_empty_input welcomeStep
    { key := "tickets", text := "🎫 Gerenciar Tickets", nextStep := "tickets_menu" }
    (welcomeOptions.drop 1) "   " (by rfl)).1 (by decide)
  simpa using h

/-- C10 counterexample: with `c10Options` the input "zz" occurs only in the
second option's label, yet the first option wins by exact key match — the
code does not select "the first option whose label contains the input". -/
theorem C10_counterexample :
    jsIncludes (jsLower "xzzx") (jsLower (jsTrim "zz")) = true ∧
    jsIncludes (jsLower "aaa") (jsLower (jsTrim "zz")) = false ∧
    c10Options.find? (fun x => jsIncludes (jsLower x.text) (jsLower (jsTrim "zz"))) =
      some { key := "qq", text := "xzzx", nextStep := "t2" } ∧
    processStepOptions "zz" c10Step = "t1" ∧
    ("t1" : String) ≠ "t2" := by
  exact ⟨by decide, by decide, by decide, rfl, by decide⟩

theorem goBackRepeat_zero (now : Int) (u : String) (st : UserStore) :
    goBackRepeat now u 0 st = (true, st) := rfl

theorem goBackRepeat_succ_true (now : Int) (u : String) (n : Nat)
    (st st' : UserStore) (h : goBackToPreviousStep now u st = (true, st')) :
    goBackRepeat now u (n + 1) st = goBackRepeat now u n st' := by
  unfold goBackRepeat
  rw [h]
  cases n <;> rfl

theorem moveSeq_spec (now : Int) (u : String) :
    ∀ (ids : List String) (id : String) (st : UserStore) (s : ConversationState),
      st.conv = some s → validMovesFrom s.currentStep (id :: ids) = true →
      moveSeq now u (id :: ids) st =
        { st with conv := some { s with currentStep := ((id :: ids).getLast?).getD "", stepHistory := s.stepHistory ++ (s.currentStep :: (id :: ids).dropLast), attempts := 0, waitingFor := none, lastMessageTime := now } } := by
  intro ids
  induction ids with
  | nil =>
    intro id st s h hv
    simp only [validMovesFrom, Bool.and_eq_true, bne_iff_ne, ne_eq] at hv
    have hne : s.currentStep ≠ id := fun he => hv.1 he.symm
    simp only [moveSeq, List.foldl_cons, List.foldl_nil]
    rw [moveToStep_spec now u id st s h hne]
    simp
  | cons r rs ih =>
    intro id st s h hv
    simp only [validMovesFrom, Bool.and_eq_true, bne_iff_ne, ne_eq] at hv
    have hne : s.currentStep ≠ id := fun he => hv.1 he.symm
    simp only [moveSeq, List.foldl_cons]
    have hstep := moveToStep_spec now u id st s h hne
    have hthis := ih r { st with conv := some { s with currentStep := id, stepHistory := s.stepHistory ++ [s.currentStep], attempts := 0, waitingFor := none, lastMessageTime := now } } { s with currentStep := id, stepHistory := s.stepHistory ++ [s.currentStep], attempts := 0, waitingFor := none, lastMessageTime := now } rfl (by simp only [validMovesFrom, Bool.and_eq_true, bne_iff_ne, ne_eq]; exact ⟨hv.2.1, hv.2.2⟩)
    rw [← hstep] at hthis
    simp only [moveSeq, List.foldl_cons] at hthis
    rw [hthis, hstep]
    simp [List.getLast?_cons_cons]

theorem goBackRepeat_spec (now : Int) (u : String) :
    ∀ (hist : List String) (st : UserStore) (s : ConversationState),
      st.conv = some s → s.stepHistory = hist → hist ≠ [] →
      goBackRepeat now u hist.length st =
        (true, { st with conv := some { s with currentStep := hist.headD "", stepHistory := [], attempts := 0, waitingFor := none, lastMessageTime := now } }) := by
  intro hist
  induction hist using List.reverseRecOn with
  | nil => intro st s h hh hne; exact absurd rfl hne
  | append_singleton ys y ih =>
    intro st s h hh hne
    have hpop := goBack_pop now u st s y h (by rw [hh]; exact List.getLast?_concat _)
    rw [hh, List.dropLast_concat] at hpop
    have hlen : (ys ++ [y]).length = ys.length + 1 := by simp
    rw [hlen, goBackRepeat_succ_true now u ys.length st _ hpop]
    rcases hys : ys with _ | ⟨z, zs⟩
    · simp [goBackRepeat_zero]
    · have hthis := ih { st with conv := some { s with currentStep := y, stepHistory := ys, attempts := 0, waitingFor := none, lastMessageTime := now } } { s with currentStep := y, stepHistory := ys, attempts := 0, waitingFor := none, lastMessageTime := now } rfl rfl (by simp [hys])
      rw [hys] at hthis
      rw [hthis]
      simp

theorem store_eta (st : UserStore) (s : ConversationState) (h : st.conv = some s) :
    { st with conv := some s } = st := by
  cases st
  simp_all

/-- C5 (amended): from a session whose history is empty, n valid `moveTo`s
are undone by exactly n successful `goBack`s returning to the original
step, and the (n+1)-th `goBack` fails without changing the state.  (The
empty-history restriction is forced: see the counterexample.) -/
theorem C5_goback_inverts (now : Int) (u : String) (st : UserStore)
    (s : ConversationState) (ids : List String)
    (hconv : st.conv = some s) (hhist : s.stepHistory = [])
    (hvalid : validMovesFrom s.currentStep ids = true) (hne : ids ≠ []) :
    (goBackRepeat now u ids.length (moveSeq now u ids st)).1 = true ∧
    (∃ s', (goBackRepeat now u ids.length (moveSeq now u ids st)).2.conv = some s' ∧
       s'.currentStep = s.currentStep ∧ s'.stepHistory = []) ∧
    (goBackToPreviousStep now u (goBackRepeat now u ids.length (moveSeq now u ids st)).2).1 = false ∧
    (goBackToPreviousStep now u (goBackRepeat now u ids.length (moveSeq now u ids st)).2).2 =
      (goBackRepeat now u ids.length (moveSeq now u ids st)).2 := by
  rcases ids with _ | ⟨id, rest⟩
  · exact absurd rfl hne
  have hm := moveSeq_spec now u rest id st s hconv hvalid
  rw [hhist] at hm
  have hlen : (id :: rest).length = (s.currentStep :: (id :: rest).dropLast).length := by
    simp [List.length_dropLast]
  rw [hm, hlen]
  have hgb := goBackRepeat_spec now u (s.currentStep :: (id :: rest).dropLast)
    { st with conv := some { s with currentStep := ((id :: rest).getLast?).getD "", stepHistory := [] ++ (s.currentStep :: (id :: rest).dropLast), attempts := 0, waitingFor := none, lastMessageTime := now } }
    { s with currentStep := ((id :: rest).getLast?).getD "", stepHistory := [] ++ (s.currentStep :: (id :: rest).dropLast), attempts := 0, waitingFor := none, lastMessageTime := now }
    rfl (by simp) (by simp)
  rw [hgb]
  simp only [List.headD_cons]
  refine ⟨trivial, ⟨_, rfl, rfl, rfl⟩, ?_⟩
  rw [goBack_fail now u _ _ rfl rfl]
  exact ⟨rfl, store_eta _ _ rfl⟩

theorem C5_goback_inverts_witness :
    (goBackRepeat 0 "u" 2 (moveSeq 0 "u" ["a", "b"] c5Store)).1 = true ∧
    ((goBackRepeat 0 "u" 2 (moveSeq 0 "u" ["a", "b"] c5Store)).2.conv).map
      ConversationState.currentStep = some "welcome" ∧
    (goBackToPreviousStep 0 "u" (goBackRepeat 0 "u" 2 (moveSeq 0 "u" ["a", "b"] c5Store)).2).1 = false := by
  have h := C5_goback_inverts 0 "u" c5Store c5Session ["a", "b"] rfl rfl (by decide) (by decide)
  obtain ⟨s', h1, h2, -⟩ := h.2.1
  refine ⟨h.1, ?_, h.2.2.1⟩
  rw [show ((["a", "b"] : List String).length) = 2 from rfl] at h1
  rw [h1, Option.map_some', h2]
  rfl

/-- C5 counterexample: for a session with a pre-existing history entry, one
valid `moveTo` (n = 1) is undone by one successful `goBack` that returns to
the original step — but the (n+1)-th `goBack` returns `true` (it pops the
pre-existing entry) instead of failing, so the claim is false for sessions
whose history is not empty. -/
theorem C5_counterexample :
    c5xSession.stepHistory = ["x"] ∧
    c5xSession.currentStep ≠ "b" ∧
    (goBackRepeat 0 "u" 1 (moveSeq 0 "u" ["b"] c5xStore)).1 = true ∧
    ((goBackRepeat 0 "u" 1 (moveSeq 0 "u" ["b"] c5xStore)).2.conv).map
      ConversationState.currentStep = some "welcome" ∧
    (goBackToPreviousStep 0 "u" (goBackRepeat 0 "u" 1 (moveSeq 0 "u" ["b"] c5xStore)).2).1 =
      true := by
  exact ⟨rfl, by decide, rfl, rfl, rfl⟩

/-- C1 counterexample: the `welcome` step sets `allowRestart := false`, yet
`#` sent there still restarts the session (the attempt counter drops from 2
to 0 and the restart banner is returned) — the flags are not consulted when
control keywords are processed. -/
theorem C1_counterexample :
    welcomeStep.allowRestart = some false ∧
    c1Store.conv = some c1Session ∧
    c1Session.currentStep = "welcome" ∧
    c1Session.attempts = 2 ∧
    (processMessage 100 "u" "#" c1Store).2.conv = some (initConversation "u" 100) ∧
    (initConversation "u" 100).attempts = 0 ∧
    (processMessage 100 "u" "#" c1Store).1.message =
      "🔄 *Reiniciando conversa...*\n\n" ++ welcomeStep.message := by
  exact ⟨rfl, rfl, rfl, rfl, rfl, rfl, rfl⟩

theorem addOutgoing_conv (now : Int) (u : String) (m : String) (st : UserStore) :
    (addOutgoingMessage now u m st).conv = st.conv := by
  unfold addOutgoingMessage addMessage
  split <;> rfl

theorem addIncoming_conv (now : Int) (u : String) (m : String) (st : UserStore) :
    (addIncomingMessage now u m st).conv = st.conv := rfl

theorem handleRestartCommand_spec (now : Int) (u : String) (st : UserStore) :
    (handleRestartCommand now u st).1.message =
      "🔄 *Reiniciando conversa...*\n\n" ++ welcomeStep.message ∧
    (handleRestartCommand now u st).2.conv = some (initConversation u now) := by
  unfold handleRestartCommand getWelcomeResponse
  rw [show getStep "welcome" = some welcomeStep from rfl]
  refine ⟨rfl, ?_⟩
  rw [addOutgoing_conv, addOutgoing_conv]
  rfl

theorem handleBackCommand_pop (now : Int) (u : String) (st : UserStore)
    (s : ConversationState) (p : String) (cs : FlowStep)
    (hconv : st.conv = some s) (hp : s.stepHistory.getLast? = some p)
    (hcs : getStep p = some cs) :
    (handleBackCommand now u st).1.message =
      "⬅️ *Voltando...*\n\n" ++ (buildStepResponse cs).message ∧
    ∃ s', (handleBackCommand now u st).2.conv = some s' ∧
      s'.currentStep = p ∧ s'.stepHistory = s.stepHistory.dropLast := by
  unfold handleBackCommand
  rw [goBack_pop now u st s p hconv hp]
  simp only [Bool.not_true, Bool.false_eq_true, if_false]
  rw [getConversationState_some now u _ _ rfl]
  simp only []
  rw [hcs]
  refine ⟨rfl, ?_⟩
  rw [addOutgoing_conv]
  exact ⟨_, rfl, rfl, rfl⟩

/-- C1 (amended): the `allowBack`/`allowRestart` flags gate only the
rendered "0."/"#." control hints; `processMessage` honours back/restart
keywords no matter what the current step's flags say (back needs only a
non-empty history whose popped step is registered). -/
theorem C1_amended_control_flags (now : Int) (u : String) (msg : String)
    (st : UserStore) (s : ConversationState) (p : String) (cs : FlowStep)
    (step : FlowStep) :
    (st.conv = some s →
      shouldDebounce (addIncomingMessage now u (sanitizeInput msg) st) DEBOUNCE_TIME = false →
      (((isControlKeyword (sanitizeInput msg)).1 = some ControlType.restart →
        (processMessage now u msg st).2.conv = some (initConversation u now) ∧
        (processMessage now u msg st).1.message =
          "🔄 *Reiniciando conversa...*\n\n" ++ welcomeStep.message) ∧
      ((isControlKeyword (sanitizeInput msg)).1 = some ControlType.back →
        s.stepHistory.getLast? = some p → getStep p = some cs →
        ∃ s', (processMessage now u msg st).2.conv = some s' ∧
          s'.currentStep = p ∧ s'.stepHistory = s.stepHistory.dropLast ∧
          (processMessage now u msg st).1.message =
            "⬅️ *Voltando...*\n\n" ++ (buildStepResponse cs).message))) ∧
    ((buildStepResponse step).options.getD [] =
      ((match step.options with
        | some opts => if opts.length > 0 then renderOptions 1 opts else []
        | none => []) ++
       (if step.allowBack ≠ some false then ["0. ⬅️ Voltar"] else []) ++
       (if step.allowRestart ≠ some false then ["#. 🔄 Recomeçar"] else []))) := by
  constructor
  · intro hconv hdeb
    have hconv1 : (addIncomingMessage now u (sanitizeInput msg) st).conv = some s := by
      rw [addIncoming_conv]; exact hconv
    constructor
    · intro hr
      have hpm : processMessage now u msg st =
          handleRestartCommand now u
            (getConversationState now u (addIncomingMessage now u (sanitizeInput msg) st)).2 := by
        unfold processMessage
        simp only [hdeb, Bool.false_eq_true, if_false, hr]
      rw [hpm]
      exact ⟨(handleRestartCommand_spec now u _).2, (handleRestartCommand_spec now u _).1⟩
    · intro hb hp hcs
      have hpm : processMessage now u msg st =
          handleBackCommand now u
            (getConversationState now u (addIncomingMessage now u (sanitizeInput msg) st)).2 := by
        unfold processMessage
        simp only [hdeb, Bool.false_eq_true, if_false, hb]
      rw [hpm]
      have hconv2 :
          ((getConversationState now u (addIncomingMessage now u (sanitizeInput msg) st)).2).conv =
            some { s with lastMessageTime := now } := by
        rw [getConversationState_some now u _ s hconv1]
      have hback := handleBackCommand_pop now u _ { s with lastMessageTime := now } p cs hconv2
        (by simpa using hp) hcs
      obtain ⟨s', hs', hcur, hhist⟩ := hback.2
      exact ⟨s', hs', hcur, by simpa using hhist, hback.1⟩
  · unfold buildStepResponse
    rcases ho : step.options with _ | opts
    · by_cases hb : step.allowBack = some false <;>
        by_cases hr2 : step.allowRestart = some false <;> simp [hb, hr2]
    · by_cases hl : opts.length > 0 <;> by_cases hb : step.allowBack = some false <;>
        by_cases hr2 : step.allowRestart = some false <;> simp [hb, hr2, hl]

theorem C1_amended_witness :
    errorStep.allowBack = some false ∧
    ((processMessage 0 "u" "0" c1bStore).2.conv).map ConversationState.currentStep =
      some "welcome" ∧
    ((processMessage 0 "u" "0" c1bStore).2.conv).map ConversationState.stepHistory =
      some ([] : List String) := by
  have h := (C1_amended_control_flags 0 "u" "0" c1bStore c1bSession "welcome" welcomeStep
    welcomeStep).1 rfl (by decide)
  obtain ⟨s', h1, h2, h3, -⟩ := h.2 rfl rfl rfl
  refine ⟨rfl, ?_, ?_⟩
  · rw [h1, Option.map_some', h2]
  · rw [h1, Option.map_some', h3]
    rfl

/-- C2: when transition resolution yields `validation_error`, the attempt
counter is incremented; reaching the cap (3) resets the session to the
initial step with the "too many invalid attempts" message, otherwise the
tiered error message is returned and the step pointer stays put. -/
theorem C2_validation_error_policy (now : Int) (u : String) (message : String)
    (state : ConversationState) (st : UserStore) (cs : FlowStep)
    (hconv : st.conv = some state)
    (hstep : getStep state.currentStep = some cs)
    (hcarve : ¬ (state.currentStep = "welcome" ∧ state.stepHistory = [] ∧
      ¬ isNumericOption (jsTrim message)))
    (hval : ∀ r, cs.validation = some r → (validateInput message r).isValid = true)
    (hact : ∀ a, cs.action = some a → a message state = Except.ok ())
    (hres : (processUserInput message state.currentStep state).1 = "validation_error") :
    ((state.attempts + 1 ≥ MAX_ATTEMPTS →
      (processNormalMessage now u message state st).2.conv = some (initConversation u now) ∧
      (processNormalMessage now u message state st).1.message = tooManyAttemptsMessage) ∧
    (state.attempts + 1 < MAX_ATTEMPTS →
      (processNormalMessage now u message state st).1.message =
        buildValidationErrorMessage (state.attempts + 1) none ∧
      ∃ s', (processNormalMessage now u message state st).2.conv = some s' ∧
        s'.currentStep = state.currentStep ∧ s'.attempts = state.attempts + 1 ∧
        s'.stepHistory = state.stepHistory)) ∧
    buildValidationErrorMessage 1 none =
      "❌ Opção inválida." ++ "\n\nPor favor, digite uma das opções listadas." ∧
    buildValidationErrorMessage 2 none =
      "❌ Opção inválida." ++ "\n\n⚠️ Atenção: Digite apenas o *número* da opção desejada." ∧
    (∀ k, 3 ≤ k → buildValidationErrorMessage k none =
      "❌ Opção inválida." ++ "\n\n🚨 Última tentativa! Use apenas os números das opções.") := by
  have hred : processNormalMessage now u message state st =
      processResolve now u message state st := by
    unfold processNormalMessage
    simp only [hstep]
    rw [if_neg hcarve]
    rcases hv : cs.validation with _ | rule
    · unfold processAfterValidation
      rcases ha : cs.action with _ | act
      · rfl
      · dsimp only
        rw [hact act ha]
    · simp only [hval rule hv, Bool.not_true, Bool.false_eq_true, if_false]
      unfold processAfterValidation
      rcases ha : cs.action with _ | act
      · rfl
      · dsimp only
        rw [hact act ha]
  have hinc := incrementAttempts_spec now u st state hconv
  have hres2 : processResolve now u message state st =
      (if state.attempts + 1 ≥ MAX_ATTEMPTS then
        (createSimpleResponse tooManyAttemptsMessage,
          restartConversation u now (incrementAttempts now u st).2)
      else
        ({ (processUserInput message state.currentStep state).2 with
            message := buildValidationErrorMessage (state.attempts + 1) none },
          addOutgoingMessage now u (buildValidationErrorMessage (state.attempts + 1) none)
            (incrementAttempts now u st).2)) := by
    unfold processResolve
    simp only [hres, if_pos rfl, hinc]
    rw [if_pos trivial]
  refine ⟨⟨?_, ?_⟩, rfl, rfl, ?_⟩
  · intro hge
    rw [hred, hres2, if_pos hge]
    exact ⟨rfl, rfl⟩
  · intro hlt
    rw [hred, hres2, if_neg (by omega)]
    refine ⟨rfl, ?_⟩
    rw [addOutgoing_conv, hinc]
    exact ⟨_, rfl, rfl, rfl, rfl⟩
  · intro k hk
    unfold buildValidationErrorMessage
    rw [if_neg (by omega), if_neg (by omega)]
    rfl

theorem C2_validation_error_witness :
    (processNormalMessage 100 "u" "zzz" c2Session c2Store).2.conv =
      some (initConversation "u" 100) ∧
    (processNormalMessage 100 "u" "zzz" c2Session c2Store).1.message =
      tooManyAttemptsMessage := by
  have h := (C2_validation_error_policy 100 "u" "zzz" c2Session c2Store ticketsMenuStep
    rfl rfl (by decide) (fun r hr => nomatch hr) (fun a ha => nomatch ha) rfl).1.1 (by decide)
  exact h

theorem tooMany_ne : tooManyAttemptsMessage ≠ "" := by decide

theorem buildValidationErrorMessage_ne (attempts : Nat) (customError : Option String) :
    buildValidationErrorMessage attempts customError ≠ "" := by
  unfold buildValidationErrorMessage
  split
  · exact strAppendNeRight _ _ (by decide)
  split
  · exact strAppendNeRight _ _ (by decide)
  · exact strAppendNeRight _ _ (by decide)

theorem getWelcomeResponse_msg_ne (now : Int) (u : String) (st : UserStore) :
    (getWelcomeResponse now u st).1.message ≠ "" := by
  unfold getWelcomeResponse
  rw [show getStep "welcome" = some welcomeStep from rfl]
  dsimp only
  decide

theorem handleError_msg_ne (now : Int) (u : String) (st : UserStore) :
    (handleError now u st).1.message ≠ "" := by
  unfold handleError
  rw [show getStep "error" = some errorStep from rfl]
  dsimp only
  decide

theorem handleValidationError_msg_ne (now : Int) (u : String) (e : String) (st : UserStore) :
    (handleValidationError now u e st).1.message ≠ "" := by
  unfold handleValidationError
  dsimp only
  split
  · exact tooMany_ne
  · exact buildValidationErrorMessage_ne _ _

theorem processUserInput_msg_ne (input stepId : String) (state : ConversationState) :
    (processUserInput input stepId state).2.message ≠ "" := by
  unfold processUserInput
  rcases h1 : getStep stepId with _ | cs
  · dsimp only
    decide
  · dsimp only
    split
    · rename_i ns heq
      exact registry_message_ne _ ns heq
    · decide

theorem processResolve_msg_ne (now : Int) (u : String) (message : String)
    (state : ConversationState) (st : UserStore) :
    (processResolve now u message state st).1.message ≠ "" := by
  unfold processResolve
  dsimp only
  split
  · split
    · exact tooMany_ne
    · exact buildValidationErrorMessage_ne _ _
  · exact processUserInput_msg_ne _ _ _

theorem processAfterValidation_msg_ne (now : Int) (u : String) (message : String)
    (state : ConversationState) (cs : FlowStep) (st : UserStore) :
    (processAfterValidation now u message state cs st).1.message ≠ "" := by
  unfold processAfterValidation
  rcases ha : cs.action with _ | act
  · exact processResolve_msg_ne now u message state st
  · dsimp only
    rcases hae : act message state with e | v
    · exact handleError_msg_ne now u st
    · exact processResolve_msg_ne now u message state st

theorem processNormalMessage_msg_ne (now : Int) (u : String) (message : String)
    (state : ConversationState) (st : UserStore) :
    (processNormalMessage now u message state st).1.message ≠ "" := by
  unfold processNormalMessage
  rcases h1 : getStep state.currentStep with _ | cs
  · exact getWelcomeResponse_msg_ne now u _
  · dsimp only
    split
    · exact registry_message_ne _ cs h1
    · rcases hv : cs.validation with _ | rule
      · exact processAfterValidation_msg_ne now u message state cs st
      · dsimp only
        split
        · exact handleValidationError_msg_ne now u _ st
        · exact processAfterValidation_msg_ne now u message state cs st

theorem handleBackCommand_msg_ne (now : Int) (u : String) (st : UserStore) :
    (handleBackCommand now u st).1.message ≠ "" := by
  unfold handleBackCommand
  dsimp only
  split
  · dsimp only
    decide
  · split
    · exact getWelcomeResponse_msg_ne now u _
    · exact strAppendNeLeft _ _ (by decide)

theorem handleRestartCommand_msg_ne (now : Int) (u : String) (st : UserStore) :
    (handleRestartCommand now u st).1.message ≠ "" := by
  unfold handleRestartCommand
  exact strAppendNeLeft _ _ (by decide)

/-- C9: every turn terminates in a well-formed (non-empty) reply, whatever
the input, the session position, or the registry lookups en route; the
embedding is a total function, mirroring the source's catch-all recovery
paths. -/
theorem C9_total_wellformed (now : Int) (u : String) (message : String) (st : UserStore) :
    (processMessage now u message st).1.message ≠ "" := by
  unfold processMessage
  dsimp only
  split
  · dsimp only
    decide
  · split
    · exact handleBackCommand_msg_ne now u _
    · exact handleRestartCommand_msg_ne now u _
    · exact processNormalMessage_msg_ne now u _ _ _
